import Mathlib

/-!
# Verification of the broccoli competition-application pipeline

Shallow embedding of the core logic of the repository:

* `src/scraper/content_parser.py` — `ParsedCompetitionInfo`,
  `validate_parsed_data`, `save_parsed_info` / `_dict_to_parsed_info`;
* `src/api/monica_client.py` — `calculate_backoff_delay`, `call_api`;
* `src/scraper/web_scraper.py` — `ScrapingResult`, `scrape_static_content`,
  `scrape_url`, `_is_content_sufficient`;
* `src/workflow/workflow_execution.py` — `construct_final_prompt`,
  `call_llm_for_application`, `execute_application_generation`.

Python dynamic values flowing through the parsed-data dictionaries are
modelled by `PyVal` (the values that occur in this data model are `None`,
strings, numbers and lists of strings).  Numbers are modelled by exact
rationals; dictionaries are modelled by association lists looked up by key.
Network and file-system effects are modelled by passing the outcome of each
external call as an explicit argument (for retry loops, a function from the
attempt index to that attempt's outcome).
-/

namespace Broccoli

/-- A Python value as it occurs in the parsed-competition-info data model:
`None`, a string, a number (int or float, modelled as an exact rational),
or a list of strings. -/
inductive PyVal where
  | vNone
  | vStr (s : String)
  | vNum (q : ℚ)
  | vStrList (xs : List String)
  deriving DecidableEq, Repr

/-- Python truthiness (`if value:`) for the values of `PyVal`:
`None`, `""`, `0` and `[]` are falsy, everything else is truthy. -/
def PyVal.truthy : PyVal → Bool
  | .vNone => false
  | .vStr s => s ≠ ""
  | .vNum q => q ≠ 0
  | .vStrList xs => !xs.isEmpty

/-- Lookup in a Python dict modelled as an association list
(`k in d` is `(dictLookup d k).isSome`; `d[k]` is the looked-up value). -/
def dictLookup : List (String × PyVal) → String → Option PyVal
  | [], _ => none
  | kv :: rest, k => if kv.1 = k then some kv.2 else dictLookup rest k

/-- Python `d.get(k)` on a dict of `PyVal`s: the value when the key is
present, `None` when it is missing. -/
def dictGet (d : List (String × PyVal)) (k : String) : PyVal :=
  (dictLookup d k).getD .vNone

/-- Lookup of a section in a parsed-data dictionary (a dict whose values are
themselves dicts, as produced by `parse_with_rules` / `parse_with_llm` and
by `save_parsed_info`). -/
def sectionLookup : List (String × List (String × PyVal)) → String →
    Option (List (String × PyVal))
  | [], _ => none
  | kv :: rest, k => if kv.1 = k then some kv.2 else sectionLookup rest k

/-- Model of `ParsedCompetitionInfo` (content_parser.py, lines 16–48): a dataclass
whose fields all default to `None`.  Each field holds a Python value. -/
structure ParsedCompetitionInfo where
  name : PyVal := .vNone
  organizer : PyVal := .vNone
  partners : PyVal := .vNone
  application_status : PyVal := .vNone
  deadline : PyVal := .vNone
  target_description : PyVal := .vNone
  eligibility_criteria : PyVal := .vNone
  stage_preference : PyVal := .vNone
  industry_focus : PyVal := .vNone
  innovation_type : PyVal := .vNone
  prize_fund : PyVal := .vNone
  benefits : PyVal := .vNone
  support_offered : PyVal := .vNone
  explicit_criteria : PyVal := .vNone
  implied_preferences : PyVal := .vNone
  confidence_score : PyVal := .vNone
  parsing_timestamp : PyVal := .vNone
  raw_content_length : PyVal := .vNone
  deriving DecidableEq, Repr

/-- The dictionary built by `save_parsed_info` (content_parser.py, lines
341–379) before it is written out as JSON: the five sections plus the
`metadata` block, each with every key present (values may be `None`). -/
def save_parsed_info_dict (p : ParsedCompetitionInfo) :
    List (String × List (String × PyVal)) :=
  [("competition_basic_info",
      [("name", p.name), ("organizer", p.organizer), ("partners", p.partners),
       ("application_status", p.application_status), ("deadline", p.deadline)]),
   ("target_participants",
      [("description", p.target_description), ("criteria", p.eligibility_criteria)]),
   ("competition_focus",
      [("stage_preference", p.stage_preference), ("industry_focus", p.industry_focus),
       ("innovation_type", p.innovation_type)]),
   ("benefits_and_prizes",
      [("prize_fund", p.prize_fund), ("benefits", p.benefits),
       ("support_offered", p.support_offered)]),
   ("evaluation_criteria",
      [("explicit_criteria", p.explicit_criteria),
       ("implied_preferences", p.implied_preferences)]),
   ("metadata",
      [("confidence_score", p.confidence_score),
       ("parsing_timestamp", p.parsing_timestamp),
       ("raw_content_length", p.raw_content_length)])]

/-- Model of `_dict_to_parsed_info` (content_parser.py, lines 310–339): reads the five
sections with `data.get(section, {})` and each field with `section.get(field)`;
the three metadata fields are never read, so they keep the dataclass default
`None`. -/
def dict_to_parsed_info (data : List (String × List (String × PyVal))) :
    ParsedCompetitionInfo :=
  let basic := (sectionLookup data "competition_basic_info").getD []
  let target := (sectionLookup data "target_participants").getD []
  let focus := (sectionLookup data "competition_focus").getD []
  let benefits := (sectionLookup data "benefits_and_prizes").getD []
  let criteria := (sectionLookup data "evaluation_criteria").getD []
  { name := dictGet basic "name"
    organizer := dictGet basic "organizer"
    partners := dictGet basic "partners"
    application_status := dictGet basic "application_status"
    deadline := dictGet basic "deadline"
    target_description := dictGet target "description"
    eligibility_criteria := dictGet target "criteria"
    stage_preference := dictGet focus "stage_preference"
    industry_focus := dictGet focus "industry_focus"
    innovation_type := dictGet focus "innovation_type"
    prize_fund := dictGet benefits "prize_fund"
    benefits := dictGet benefits "benefits"
    support_offered := dictGet benefits "support_offered"
    explicit_criteria := dictGet criteria "explicit_criteria"
    implied_preferences := dictGet criteria "implied_preferences" }

/-! ## `ContentParser.validate_parsed_data` (content_parser.py, lines 237–274) -/

/-- The fixed scoring-weight table of `validate_parsed_data`, in the
iteration order of the Python dict literal. -/
def scoringWeights : List (String × List (String × ℚ)) :=
  [("competition_basic_info",
      [("name", 15/100), ("organizer", 10/100),
       ("application_status", 15/100), ("deadline", 20/100)]),
   ("benefits_and_prizes",
      [("prize_fund", 15/100), ("benefits", 10/100)]),
   ("target_participants",
      [("criteria", 10/100)]),
   ("competition_focus",
      [("stage_preference", 5/100)])]

/-- Model of `validate_parsed_data(parsed_data)`: for every weighted section that is
present in `parsed_data`, every field weight of that section is added to
`total_weight`, and the weights of the fields that are present with a truthy
value are added to `score`; the result is
`min(score / total_weight if total_weight > 0 else 0.0, 1.0)`.
Float arithmetic is modelled by exact rational arithmetic. -/
def validate_parsed_data (parsed_data : List (String × List (String × PyVal))) : ℚ :=
  let st : ℚ × ℚ := scoringWeights.foldl
    (fun acc sec =>
      match sectionLookup parsed_data sec.1 with
      | none => acc
      | some sd => sec.2.foldl
          (fun acc2 fw =>
            let score := match dictLookup sd fw.1 with
              | some v => if v.truthy then acc2.1 + fw.2 else acc2.1
              | none => acc2.1
            (score, acc2.2 + fw.2))
          acc)
    (0, 0)
  min (if st.2 > 0 then st.1 / st.2 else 0) 1

/-! ## `MonicaClient` (monica_client.py) -/

/-- Model of `calculate_backoff_delay(attempt, base_delay, max_delay=300)`
(monica_client.py, lines 37–52): `min(base_delay * 2 ** attempt, max_delay)`.
The Python default `max_delay=300` is passed explicitly at call sites. -/
def calculate_backoff_delay (attempt base_delay max_delay : ℕ) : ℕ :=
  min (base_delay * 2 ^ attempt) max_delay

/-- What one attempt of `call_api` observes from the network: an HTTP
response with its status code and the value found (possibly `None`) at
`result['choices'][0]['message']['content']`, or an exception raised during
the request or while reading the body (timeout, connection error, missing
`choices[0]`, ...). -/
inductive ApiResponse where
  | http (status : ℕ) (content : PyVal)
  | netExcept (msg : String)

/-- The classification the body of the `call_api` attempt loop
(monica_client.py, lines 106–142) gives one attempt: return the content
(success), return `None` immediately (terminal client error), or fall
through to the retry logic. -/
inductive AttemptOutcome where
  | success (content : PyVal)
  | terminal
  | retryable
  deriving DecidableEq, Repr

/-- One iteration of the `call_api` loop, following the branch ladder of
monica_client.py lines 111–142: status 200 with truthy content succeeds,
200 without content falls through, 429 falls through, >= 500 falls through,
other statuses in [400, 500) return `None` immediately, any remaining
status falls through, and a raised exception is caught and falls through. -/
def attempt_outcome (r : ApiResponse) : AttemptOutcome :=
  match r with
  | .http status content =>
    if status = 200 then
      if content.truthy then .success content else .retryable
    else if status = 429 then .retryable
    else if 500 ≤ status then .retryable
    else if 400 ≤ status ∧ status < 500 then .terminal
    else .retryable
  | .netExcept _ => .retryable

/-- Observable outcome of a `call_api` invocation: the returned content
(`None` on failure), the number of network calls made, and the list of
backoff delays slept (in order).  Wall-clock elapsed time is not modelled. -/
structure CallApiTrace where
  result : Option PyVal
  calls : ℕ
  sleeps : List ℕ
  deriving DecidableEq, Repr

/-- The `for attempt in range(retry_attempts)` loop of `call_api`
(monica_client.py, lines 106–152), with `resp` giving the network's answer
to each attempt.  `fuel` is the number of loop iterations left
(`retry_attempts - attempt`); when it reaches zero the loop is over and the
function returns `(None, elapsed)`.  A retryable attempt that is not the
last one sleeps `calculate_backoff_delay(attempt, retry_delay)` (Python
default `max_delay=300`) before the next attempt. -/
def call_api_loop (resp : ℕ → ApiResponse) (retry_delay retry_attempts : ℕ) :
    ℕ → ℕ → CallApiTrace
  | _, 0 => { result := none, calls := 0, sleeps := [] }
  | attempt, fuel + 1 =>
    match attempt_outcome (resp attempt) with
    | .success c => { result := some c, calls := 1, sleeps := [] }
    | .terminal => { result := none, calls := 1, sleeps := [] }
    | .retryable =>
      if attempt < retry_attempts - 1 then
        let rest := call_api_loop resp retry_delay retry_attempts (attempt + 1) fuel
        { result := rest.result, calls := rest.calls + 1,
          sleeps := calculate_backoff_delay attempt retry_delay 300 :: rest.sleeps }
      else
        { result := none, calls := 1, sleeps := [] }

/-- Model of `call_api(prompt, retry_attempts, retry_delay, ...)` viewed through its
observable trace: run the attempt loop from attempt 0. -/
def call_api (resp : ℕ → ApiResponse) (retry_attempts retry_delay : ℕ) :
    CallApiTrace :=
  call_api_loop resp retry_delay retry_attempts 0 retry_attempts

/-! ## `WebScraper` (web_scraper.py) -/

/-- The whitespace characters removed by Python's `str.strip()` (the ASCII
ones; all strings considered here are ASCII). -/
def isPySpace (c : Char) : Bool :=
  c = ' ' ∨ c = '\t' ∨ c = '\n' ∨ c = '\r' ∨ c = '\x0b' ∨ c = '\x0c'

/-- Python `content.strip()`: remove leading and trailing whitespace. -/
def pyStrip (s : String) : String :=
  String.mk (((s.data.dropWhile isPySpace).reverse.dropWhile isPySpace).reverse)

/-- Python `content.lower()` (ASCII lowering; the keyword comparisons in the
code only involve ASCII). -/
def pyLower (s : String) : String :=
  String.mk (s.data.map Char.toLower)

/-- The fixed competition keyword list of `_is_content_sufficient`
(web_scraper.py, lines 485–489). -/
def competition_keywords : List String :=
  ["competition", "apply", "application", "deadline", "prize", "eligibility",
   "requirements", "submit", "participants", "winner", "startup", "innovation",
   "entrepreneur", "funding", "investment", "accelerator"]

/-- Whether `needle` occurs at the start of `hay`. -/
def charsStartWith : List Char → List Char → Bool
  | [], _ => true
  | _ :: _, [] => false
  | a :: as, b :: bs => a = b && charsStartWith as bs

/-- Python's `needle in hay` substring test on character lists. -/
def charsContain (needle : List Char) : List Char → Bool
  | [] => charsStartWith needle []
  | b :: bs => charsStartWith needle (b :: bs) || charsContain needle bs

/-- Model of `sum(1 for keyword in competition_keywords if keyword in content_lower)`:
the number of keywords occurring as substrings of the lowercased content. -/
def keyword_matches (s : String) : ℕ :=
  (competition_keywords.filter (fun k => charsContain k.data (pyLower s).data)).length

/-- Model of `_is_content_sufficient(content)` (web_scraper.py, lines 470–495):
false for `None` or empty content, false when `len(content.strip()) < 500`,
otherwise true exactly when at least 3 keywords match. -/
def is_content_sufficient (content : Option String) : Bool :=
  match content with
  | none => false
  | some s =>
    if s = "" then false
    else if (pyStrip s).data.length < 500 then false
    else 3 ≤ keyword_matches s

/-- Model of `ScrapingResult` (web_scraper.py, lines 36–54). -/
structure ScrapingResult where
  url : String
  success : Bool
  content : Option String := none
  title : Option String := none
  meta_description : Option String := none
  links : Option (List String) := none
  images : Option (List String) := none
  error_message : Option String := none
  scraping_method : Option String := none
  timestamp : Option String := none
  deriving DecidableEq, Repr

/-- What a successful GET-plus-BeautifulSoup pass over a page yields before
`scrape_static_content` packages it (content, title, meta description and
the uncapped link/image lists); the HTML parsing itself is abstracted. -/
structure PageData where
  content : String
  title : Option String
  meta_description : Option String
  links : List String
  images : List String
  deriving DecidableEq, Repr

/-- Outcome of one attempt of the static-scraping loop: a parsed page, a
`requests.exceptions.RequestException` (bad status via `raise_for_status`,
timeout, connection error — retried), or any other exception (returned
immediately as an unexpected error). -/
inductive FetchAttempt where
  | ok (page : PageData)
  | requestError (msg : String)
  | otherError (msg : String)
  deriving Repr

/-- The successful `ScrapingResult` built by `scrape_static_content`
(web_scraper.py, lines 193–203), with links capped at 50 and images at 20. -/
def static_success_result (url : String) (page : PageData) (ts : String) :
    ScrapingResult :=
  { url := url, success := true, content := some page.content,
    title := page.title, meta_description := page.meta_description,
    links := some (page.links.take 50), images := some (page.images.take 20),
    scraping_method := some "static", timestamp := some ts }

/-- The `for attempt in range(self.max_retries)` loop of
`scrape_static_content` (web_scraper.py, lines 154–224).  `att` gives each
attempt's outcome and `ts` each attempt's timestamp; `fuel` is the number of
iterations left.  `none` models the loop finishing without a `return`
statement, in which case the Python function implicitly returns `None`
rather than a `ScrapingResult`. -/
def static_loop (att : ℕ → FetchAttempt) (max_retries : ℕ) (url : String)
    (ts : ℕ → String) : ℕ → ℕ → Option ScrapingResult
  | _, 0 => none
  | attempt, fuel + 1 =>
    match att attempt with
    | .ok page => some (static_success_result url page (ts attempt))
    | .requestError msg =>
      if attempt = max_retries - 1 then
        some { url := url, success := false,
               error_message := some ("Static scraping failed after " ++
                 toString max_retries ++ " attempts: " ++ msg),
               scraping_method := some "static", timestamp := some (ts attempt) }
      else static_loop att max_retries url ts (attempt + 1) fuel
    | .otherError msg =>
      some { url := url, success := false,
             error_message := some ("Unexpected error: " ++ msg),
             scraping_method := some "static", timestamp := some (ts attempt) }

/-- Model of `scrape_static_content(url)`: run the attempt loop from attempt 0 with
`max_retries` iterations available. -/
def scrape_static_content (att : ℕ → FetchAttempt) (max_retries : ℕ)
    (url : String) (ts : ℕ → String) : Option ScrapingResult :=
  static_loop att max_retries url ts 0 max_retries

/-- The failure result `scrape_url` returns for a URL without scheme or
host (web_scraper.py, lines 436–443). -/
def invalid_url_result (url ts : String) : ScrapingResult :=
  { url := url, success := false, error_message := some "Invalid URL format",
    timestamp := some ts }

/-- Python's f-string rendering of an `Optional[str]`: `None` prints as the
four characters `None`. -/
def pyStrOfOpt : Option String → String
  | none => "None"
  | some s => s

/-- The combined message `scrape_url` writes into the static result's
`error_message` when both stages fail (web_scraper.py, line 467). -/
def combined_failure_message (static_err dynamic_err : Option String) : String :=
  "Both static and dynamic scraping failed. Static: " ++ pyStrOfOpt static_err ++
    ", Dynamic: " ++ pyStrOfOpt dynamic_err

/-- Model of `scrape_url(url, force_dynamic)` (web_scraper.py, lines 418–468), with
the URL-format check, the static fetch and the dynamic fetch supplied as
arguments (`url_valid` is the outcome of the `urlparse` scheme/netloc
check; `static_result` is what `scrape_static_content` returned, `none`
meaning Python `None`; `dynamic_result` is what `scrape_dynamic_content`
would return if called).  The overall `none` models an uncaught exception
(`static_result.success` on `None`).  When both stages fail the code
assigns the combined message to the static result's `error_message` field
in place and returns that same object. -/
def scrape_url (url_valid force_dynamic : Bool)
    (static_result : Option ScrapingResult) (dynamic_result : ScrapingResult)
    (url ts : String) : Option ScrapingResult :=
  if !url_valid then some (invalid_url_result url ts)
  else if force_dynamic then some dynamic_result
  else
    match static_result with
    | none => none
    | some sr =>
      if sr.success && is_content_sufficient sr.content then some sr
      else if dynamic_result.success then some dynamic_result
      else some { sr with error_message := some (combined_failure_message
                    sr.error_message dynamic_result.error_message) }

/-- A static-fetch content that passes the sufficiency check: three
keywords and enough non-whitespace bulk to keep the stripped length at or
above 500 characters. -/
def sufficientContent : String :=
  "competition apply deadline " ++ String.mk (List.replicate 500 'a')

/-- A successful static `ScrapingResult` with sufficient content. -/
def exampleStaticSuccess : ScrapingResult :=
  { url := "https://example.com", success := true,
    content := some sufficientContent, scraping_method := some "static",
    timestamp := some "t1" }

/-- A failed static `ScrapingResult` as built by `scrape_static_content`
after exhausting its retries. -/
def exampleStaticFailure : ScrapingResult :=
  { url := "https://example.com", success := false,
    error_message := some "Static scraping failed after 3 attempts: timeout",
    scraping_method := some "static", timestamp := some "t1" }

/-- A failed dynamic `ScrapingResult` as built by `scrape_dynamic_content`
on a page-load timeout. -/
def exampleDynamicFailure : ScrapingResult :=
  { url := "https://example.com", success := false,
    error_message := some "Page load timeout for https://example.com",
    scraping_method := some "dynamic", timestamp := some "t2" }

/-! ## `WorkflowExecutor` (workflow_execution.py) -/

/-- Model of `construct_final_prompt` (workflow_execution.py, lines 267–280):
substitute the competition name and timestamp, join the reference documents
into one block, and substitute the reference and (empty) history data. -/
def construct_final_prompt (template : String)
    (reference_docs : List (String × String)) (competition_name now : String) :
    String :=
  let prompt := (template.replace "{COMPETITION_NAME}" competition_name).replace
    "{TIMESTAMP}" now
  let reference_data := reference_docs.foldl
    (fun acc kv => acc ++ "\n## " ++ kv.1 ++ "\n" ++ kv.2 ++ "\n") ""
  (prompt.replace "{reference_data}" reference_data).replace "{history_data}" ""

/-- The fallback document `call_llm_for_application` returns when the LLM
call raises (workflow_execution.py, lines 309–323), embedding the error
message, the prompt length and the error timestamp. -/
def fallback_application (e : String) (prompt_len : ℕ) (now : String) : String :=
  "# Application Generation Failed\n\nAn error occurred while generating the application content: "
    ++ e
    ++ ("\n\n**Original prompt length:** " ++ toString prompt_len
        ++ " characters\n**Error timestamp:** " ++ now
        ++ "\n\nPlease check the logs for more details and verify your Monica AI configuration.\n\n---\n*Competition Application Automation System*\n")

/-- Model of `call_llm_for_application(prompt)` (workflow_execution.py, lines
282–323) with the outcome of `MonicaClient.complete` passed in: the content
on success, and on any exception the fallback document instead of a raise. -/
def call_llm_for_application (llm_outcome : Except String String)
    (prompt now : String) : String :=
  match llm_outcome with
  | .ok content => content
  | .error e => fallback_application e prompt.data.length now

/-- Model of `execute_application_generation(competition_name)` (workflow_execution.py,
lines 235–265) with its external interactions passed in: template loading
(`Except.error` models a raised `FileNotFoundError`, caught by the stage's
`except` and turned into `False`), the reference documents, and the LLM
outcome.  Returns the content written to the application file (if any) and
the stage's boolean result; the file write itself is assumed to succeed. -/
def execute_application_generation (template_load : Except String String)
    (reference_docs : List (String × String)) (competition_name : String)
    (llm_outcome : Except String String) (now : String) :
    Option String × Bool :=
  match template_load with
  | .error _ => (none, false)
  | .ok tmpl =>
    let final_prompt := construct_final_prompt tmpl reference_docs competition_name now
    let application_content := call_llm_for_application llm_outcome final_prompt now
    (some application_content, true)

end Broccoli

namespace Broccoli

/-- C1 (counterexample). The claim says the score for
`{"competition_basic_info": {"name": "X"}}` is `1.0`; in the code the
denominator accumulates the weights of all four `competition_basic_info`
fields (0.60) as soon as the section is present, so the score is
`0.15 / 0.60 = 0.25`, not `1.0`. -/
theorem validate_parsed_data_name_only_not_one :
    validate_parsed_data [("competition_basic_info", [("name", PyVal.vStr "X")])]
      = 1/4 ∧ (1/4 : ℚ) ≠ 1 := by
  refine ⟨?_, by norm_num⟩
  simp [validate_parsed_data, scoringWeights, sectionLookup, dictLookup,
    PyVal.truthy]
  norm_num

/-- C1 (amended). With only `{"competition_basic_info": {"name": "X"}}`
present the score is `0.15 / 0.60 = 0.25` (the denominator counts every
field of the present section, not only the present fields); the empty
dictionary with no recognized section scores `0.0`. -/
theorem validate_parsed_data_name_only_and_empty :
    validate_parsed_data [("competition_basic_info", [("name", PyVal.vStr "X")])]
      = 1/4 ∧ validate_parsed_data [] = 0 := by
  constructor
  · simp [validate_parsed_data, scoringWeights, sectionLookup, dictLookup,
      PyVal.truthy]
    norm_num
  · simp [validate_parsed_data, scoringWeights, sectionLookup, dictLookup]

/-- C2 (counterexample). Serializing a `ParsedCompetitionInfo` whose
metadata fields are set (here `confidence_score = 1.0`,
`parsing_timestamp = "2026-01-01T00:00:00"`, `raw_content_length = 600`)
and re-parsing it does not restore those fields: `_dict_to_parsed_info`
never reads the `metadata` block, so they come back as `None` and the
round-tripped record differs from the original. -/
theorem save_load_roundtrip_loses_metadata :
    dict_to_parsed_info (save_parsed_info_dict
      { confidence_score := PyVal.vNum 1,
        parsing_timestamp := PyVal.vStr "2026-01-01T00:00:00",
        raw_content_length := PyVal.vNum 600 })
    ≠ ({ confidence_score := PyVal.vNum 1,
         parsing_timestamp := PyVal.vStr "2026-01-01T00:00:00",
         raw_content_length := PyVal.vNum 600 } : ParsedCompetitionInfo) := by
  intro h
  have h2 := congrArg ParsedCompetitionInfo.parsing_timestamp h
  simp [dict_to_parsed_info, save_parsed_info_dict, sectionLookup, dictGet,
    dictLookup] at h2

/-- C2 (amended). Round trip through the five-section-plus-metadata JSON
layout restores the fifteen content fields of `ParsedCompetitionInfo`
exactly; the three metadata fields (`confidence_score`, `parsing_timestamp`,
`raw_content_length`) are not read back by `_dict_to_parsed_info` and come
back as `None`, so full field-for-field equality holds exactly when the
original record's metadata fields are all `None`. -/
theorem save_load_roundtrip :
    ∀ p : ParsedCompetitionInfo,
      dict_to_parsed_info (save_parsed_info_dict p) =
        { p with confidence_score := PyVal.vNone,
                 parsing_timestamp := PyVal.vNone,
                 raw_content_length := PyVal.vNone } := by
  intro p
  simp [dict_to_parsed_info, save_parsed_info_dict, sectionLookup, dictGet,
    dictLookup]

/-- C5. `calculate_backoff_delay(n, base_delay, max_delay)` equals
`min(base_delay * 2^n, max_delay)`, is monotonically non-decreasing in `n`,
never exceeds `max_delay`, and for `base_delay=5`, `max_delay=300` the
delays of attempts 0..6 are 5, 10, 20, 40, 80, 160, 300. -/
theorem calculate_backoff_delay_spec :
    (∀ n base max_d : ℕ,
      calculate_backoff_delay n base max_d = min (base * 2 ^ n) max_d
      ∧ calculate_backoff_delay n base max_d ≤ max_d
      ∧ calculate_backoff_delay n base max_d ≤ calculate_backoff_delay (n + 1) base max_d)
    ∧ (List.range 7).map (fun n => calculate_backoff_delay n 5 300)
        = [5, 10, 20, 40, 80, 160, 300] := by
  refine ⟨fun n base max_d => ⟨rfl, Nat.min_le_right _ _, ?_⟩, by decide⟩
  have hpow : (2 : ℕ) ^ n ≤ 2 ^ (n + 1) :=
    Nat.pow_le_pow_right (by norm_num) (Nat.le_succ n)
  exact min_le_min (Nat.mul_le_mul le_rfl hpow) le_rfl

/-- C4. An attempt of `call_api` succeeds exactly when the HTTP status is
200 and the response body carries truthy (non-empty) content at the first
choice's message; an HTTP 200 without such content is neither a success nor
a terminal failure: inside the loop it consumes the attempt like a
transient failure, sleeping the backoff delay when attempts remain, and
never raises (the classification is total). -/
theorem malformed_200_consumes_attempt :
    (∀ c : PyVal, attempt_outcome (.http 200 c)
        = (if c.truthy then .success c else .retryable))
    ∧ (∀ (status : ℕ) (c x : PyVal), attempt_outcome (.http status c) = .success x
        → status = 200 ∧ c.truthy = true ∧ x = c)
    ∧ (∀ (resp : ℕ → ApiResponse) (delay total attempt fuel : ℕ),
        attempt_outcome (resp attempt) = .retryable →
        call_api_loop resp delay total attempt (fuel + 1) =
          if attempt < total - 1 then
            { result := (call_api_loop resp delay total (attempt + 1) fuel).result,
              calls := (call_api_loop resp delay total (attempt + 1) fuel).calls + 1,
              sleeps := calculate_backoff_delay attempt delay 300 ::
                (call_api_loop resp delay total (attempt + 1) fuel).sleeps }
          else { result := none, calls := 1, sleeps := [] }) := by
  refine ⟨fun c => ?_, fun status c x h => ?_, fun resp delay total attempt fuel h => ?_⟩
  · simp [attempt_outcome]
  · simp only [attempt_outcome] at h
    split_ifs at h with h1 h2 h3 h4
    all_goals simp_all
  · simp only [call_api_loop, h]

/-- C4 witness: three attempts all answering HTTP 200 with an empty content
string: the first attempt is classified retryable, consumes the attempt and
sleeps the backoff delay before the next one. -/
theorem malformed_200_consumes_attempt_witness :
    attempt_outcome (ApiResponse.http 200 (PyVal.vStr "")) = AttemptOutcome.retryable
    ∧ call_api_loop (fun _ => ApiResponse.http 200 (PyVal.vStr "")) 5 3 0 3
      = { result := (call_api_loop (fun _ => ApiResponse.http 200 (PyVal.vStr "")) 5 3 1 2).result,
          calls := (call_api_loop (fun _ => ApiResponse.http 200 (PyVal.vStr "")) 5 3 1 2).calls + 1,
          sleeps := calculate_backoff_delay 0 5 300 ::
            (call_api_loop (fun _ => ApiResponse.http 200 (PyVal.vStr "")) 5 3 1 2).sleeps } := by
  have h1 : attempt_outcome (ApiResponse.http 200 (PyVal.vStr "")) = .retryable := by
    simp [attempt_outcome, PyVal.truthy]
  refine ⟨h1, ?_⟩
  have h2 := malformed_200_consumes_attempt.2.2
    (fun _ => ApiResponse.http 200 (PyVal.vStr "")) 5 3 0 2 h1
  simpa using h2

/-- C6. An HTTP response with a status in [400, 500) other than 429 is
classified terminal; on a terminal attempt the loop stops at once, making
that one network call, sleeping never and attempting nothing further, and
the result is `None`; in particular a terminal status on the first attempt
makes `call_api` return `(None, elapsed)` after exactly one network call
and no sleep. -/
theorem terminal_4xx_stops_immediately :
    (∀ (status : ℕ) (c : PyVal), 400 ≤ status → status < 500 → status ≠ 429 →
        attempt_outcome (.http status c) = .terminal)
    ∧ (∀ (resp : ℕ → ApiResponse) (delay total attempt fuel : ℕ),
        attempt_outcome (resp attempt) = .terminal →
        call_api_loop resp delay total attempt (fuel + 1)
          = { result := none, calls := 1, sleeps := [] })
    ∧ (∀ (resp : ℕ → ApiResponse) (delay total status : ℕ) (c : PyVal),
        400 ≤ status → status < 500 → status ≠ 429 → resp 0 = .http status c →
        1 ≤ total →
        call_api resp total delay
          = { result := none, calls := 1, sleeps := [] }) := by
  have hclass : ∀ (status : ℕ) (c : PyVal),
      400 ≤ status → status < 500 → status ≠ 429 →
      attempt_outcome (.http status c) = .terminal := by
    intro status c h4 h5 h429
    unfold attempt_outcome
    have hn200 : status ≠ 200 := by omega
    have hn500 : ¬ 500 ≤ status := by omega
    simp [hn200, h429, hn500, h4, h5]
  have hloop : ∀ (resp : ℕ → ApiResponse) (delay total attempt fuel : ℕ),
      attempt_outcome (resp attempt) = .terminal →
      call_api_loop resp delay total attempt (fuel + 1)
        = { result := none, calls := 1, sleeps := [] } := by
    intro resp delay total attempt fuel hout
    simp only [call_api_loop, hout]
  refine ⟨hclass, hloop, ?_⟩
  intro resp delay total status c h4 h5 h429 hresp htotal
  obtain ⟨t, rfl⟩ : ∃ t, total = t + 1 := ⟨total - 1, by omega⟩
  unfold call_api
  exact hloop resp delay (t + 1) 0 t (hresp ▸ hclass status c h4 h5 h429)

/-- C6 witness: a 404 on the first of three attempts yields exactly one
network call, no sleep and a `None` result. -/
theorem terminal_4xx_stops_immediately_witness :
    call_api (fun _ => ApiResponse.http 404 PyVal.vNone) 3 5
      = { result := none, calls := 1, sleeps := [] } :=
  terminal_4xx_stops_immediately.2.2 (fun _ => ApiResponse.http 404 PyVal.vNone)
    5 3 404 PyVal.vNone (by norm_num) (by norm_num) (by norm_num) rfl (by norm_num)

set_option maxRecDepth 40000 in
/-- C7 (counterexample). The claim measures the 500-character threshold on
the raw content, but the code measures it on `content.strip()`: the
600-character string `"deadline apply prize"` followed by 580 spaces
contains the keywords "deadline", "apply" and "prize", yet is judged
insufficient because its stripped length is 20 < 500. -/
theorem is_content_sufficient_ignores_padding :
    ("deadline apply prize" ++ String.mk (List.replicate 580 ' ')).data.length = 600
    ∧ charsContain "deadline".data
        (pyLower ("deadline apply prize" ++ String.mk (List.replicate 580 ' '))).data = true
    ∧ charsContain "apply".data
        (pyLower ("deadline apply prize" ++ String.mk (List.replicate 580 ' '))).data = true
    ∧ charsContain "prize".data
        (pyLower ("deadline apply prize" ++ String.mk (List.replicate 580 ' '))).data = true
    ∧ is_content_sufficient
        (some ("deadline apply prize" ++ String.mk (List.replicate 580 ' '))) = false := by
  refine ⟨by decide, by decide, by decide, by decide, by decide⟩

/-- C7 (amended). `_is_content_sufficient(content)` returns true if and
only if content is present and non-`None`, the length of the *stripped*
content is at least 500 characters, and at least 3 keywords of the fixed
competition keyword list occur in the lowercased content; in particular a
600-character string whose stripped length is still at least 500 and which
contains "deadline", "apply" and "prize" is sufficient, and any string
containing no keyword is not. -/
theorem is_content_sufficient_iff (content : Option String) :
    is_content_sufficient content = true ↔
      ∃ s, content = some s ∧ 500 ≤ (pyStrip s).data.length
        ∧ 3 ≤ keyword_matches s := by
  cases content with
  | none => simp [is_content_sufficient]
  | some s =>
    simp only [is_content_sufficient, Option.some.injEq]
    constructor
    · intro h
      by_cases h1 : s = ""
      · rw [if_pos h1] at h
        exact absurd h (by simp)
      · rw [if_neg h1] at h
        by_cases h2 : (pyStrip s).data.length < 500
        · rw [if_pos h2] at h
          exact absurd h (by simp)
        · rw [if_neg h2] at h
          exact ⟨s, rfl, by omega, by simpa using h⟩
    · rintro ⟨s', hss, hlen, hkw⟩
      subst hss
      have h1 : ¬ s = "" := by
        intro he
        rw [he] at hlen
        simp [pyStrip] at hlen
      rw [if_neg h1, if_neg (by omega)]
      simpa using hkw

set_option maxRecDepth 40000 in
/-- C7 witness for the amended characterization: a concrete string with
three keywords and stripped length at least 500 is judged sufficient. -/
theorem is_content_sufficient_iff_witness :
    is_content_sufficient (some sufficientContent) = true :=
  (is_content_sufficient_iff (some sufficientContent)).mpr
    ⟨sufficientContent, rfl, by decide, by decide⟩

/-- C3. For a valid URL with `force_dynamic` false: if the static result
succeeded and its content is sufficient it is returned unchanged and the
dynamic fetch result is irrelevant (never consulted); otherwise the dynamic
result is returned when it succeeded, and when it failed too the static
result is returned with its error message replaced by the concatenation of
both stages' error messages. -/
theorem scrape_url_orchestration (sr d : ScrapingResult) (url ts : String) :
    (sr.success = true → is_content_sufficient sr.content = true →
      ∀ d2 : ScrapingResult, scrape_url true false (some sr) d2 url ts = some sr)
    ∧ (¬ (sr.success = true ∧ is_content_sufficient sr.content = true) →
        (d.success = true → scrape_url true false (some sr) d url ts = some d)
        ∧ (d.success = false →
            scrape_url true false (some sr) d url ts =
              some { sr with error_message := some (combined_failure_message
                sr.error_message d.error_message) })) := by
  refine ⟨fun hs hc d2 => ?_, fun hns => ?_⟩
  · simp [scrape_url, hs, hc]
  · have hb : (sr.success && is_content_sufficient sr.content) = false := by
      cases hsuc : sr.success
      · simp
      · cases hsuf : is_content_sufficient sr.content
        · simp
        · exact absurd ⟨hsuc, hsuf⟩ hns
    exact ⟨fun hd => by simp [scrape_url, hb, hd],
           fun hd => by simp [scrape_url, hb, hd]⟩

set_option maxRecDepth 40000 in
/-- C3 witness: a sufficient static result is returned as-is whatever the
dynamic result would have been, and a failed static result followed by a
failed dynamic result yields the static record carrying the combined
message. -/
theorem scrape_url_orchestration_witness :
    scrape_url true false (some exampleStaticSuccess) exampleDynamicFailure
        "https://example.com" "t" = some exampleStaticSuccess
    ∧ scrape_url true false (some exampleStaticFailure) exampleDynamicFailure
        "https://example.com" "t"
      = some { exampleStaticFailure with
          error_message := some (combined_failure_message
            exampleStaticFailure.error_message
            exampleDynamicFailure.error_message) } := by
  constructor
  · exact (scrape_url_orchestration exampleStaticSuccess exampleDynamicFailure
      "https://example.com" "t").1 rfl (by decide) exampleDynamicFailure
  · exact ((scrape_url_orchestration exampleStaticFailure exampleDynamicFailure
      "https://example.com" "t").2 (by intro h; exact absurd h.1 (by decide))).2 rfl

/-- C8 (counterexample). When both stages fail, `scrape_url` (line 467 of
web_scraper.py) assigns a new `error_message` to the very `ScrapingResult`
object the static fetch produced and returns it: the returned static record
differs from the one constructed by the static fetch in its
`error_message` field, so the record is not immutable after construction. -/
theorem scraping_result_error_message_overwritten :
    scrape_url true false (some exampleStaticFailure) exampleDynamicFailure
        "https://example.com" "t"
      = some { exampleStaticFailure with
          error_message := some "Both static and dynamic scraping failed. Static: Static scraping failed after 3 attempts: timeout, Dynamic: Page load timeout for https://example.com" }
    ∧ some "Both static and dynamic scraping failed. Static: Static scraping failed after 3 attempts: timeout, Dynamic: Page load timeout for https://example.com"
      ≠ exampleStaticFailure.error_message := by
  exact ⟨rfl, by decide⟩

/-- C8 (amended). Every field of a `ScrapingResult` except `error_message`
is left untouched by the orchestration; the one mutation is that when the
static stage is not sufficient and the dynamic stage fails, `scrape_url`
overwrites the static result's `error_message` (in place, on the same
object) with the combined two-stage failure message, leaving all other
fields as constructed. -/
theorem scrape_url_mutates_only_error_message (sr d : ScrapingResult)
    (url ts : String)
    (hno : (sr.success && is_content_sufficient sr.content) = false)
    (hd : d.success = false) :
    scrape_url true false (some sr) d url ts
      = some { sr with error_message := some (combined_failure_message
          sr.error_message d.error_message) } := by
  simp [scrape_url, hno, hd]

/-- C8 witness: the combined-failure branch evaluated at a concrete failed
static and failed dynamic result. -/
theorem scrape_url_mutates_only_error_message_witness :
    scrape_url true false (some exampleStaticFailure) exampleDynamicFailure
        "https://example.com" "t"
      = some { exampleStaticFailure with
          error_message := some (combined_failure_message
            exampleStaticFailure.error_message
            exampleDynamicFailure.error_message) } :=
  scrape_url_mutates_only_error_message exampleStaticFailure
    exampleDynamicFailure "https://example.com" "t" rfl rfl

/-- C9 (code bug evaluation). With `max_retries = 0` the
`for attempt in range(self.max_retries)` loop body of
`scrape_static_content` never runs and the function falls off the end,
implicitly returning `None` instead of the `ScrapingResult` its docstring
promises; `scrape_url` then evaluates `static_result.success` on `None`
and the resulting `AttributeError` escapes (modelled by the overall
`none`), contradicting the never-throws claim. -/
theorem scrape_static_content_zero_retries_returns_none :
    scrape_static_content (fun _ => FetchAttempt.requestError "connection refused")
        0 "https://example.com" (fun _ => "2026-01-01T00:00:00") = none
    ∧ scrape_url true false
        (scrape_static_content (fun _ => FetchAttempt.requestError "connection refused")
          0 "https://example.com" (fun _ => "2026-01-01T00:00:00"))
        exampleDynamicFailure "https://example.com" "t" = none :=
  ⟨rfl, rfl⟩

/-- C10. When the LLM call inside `call_llm_for_application` raises with
message `e` (for example after all retries are exhausted), the exception is
caught and the fallback error document embedding `e` is returned, so
`execute_application_generation` still writes an application file (the
fallback document) and reports `True`. -/
theorem llm_failure_still_reports_success (tmpl : String)
    (docs : List (String × String)) (name e now : String) :
    execute_application_generation (.ok tmpl) docs name (.error e) now
      = (some (fallback_application e
          (construct_final_prompt tmpl docs name now).data.length now), true)
    ∧ List.IsInfix e.data
        (fallback_application e
          (construct_final_prompt tmpl docs name now).data.length now).data := by
  refine ⟨rfl, ?_⟩
  refine ⟨"# Application Generation Failed\n\nAn error occurred while generating the application content: ".data,
    ("\n\n**Original prompt length:** "
      ++ toString (construct_final_prompt tmpl docs name now).data.length
      ++ " characters\n**Error timestamp:** " ++ now
      ++ "\n\nPlease check the logs for more details and verify your Monica AI configuration.\n\n---\n*Competition Application Automation System*\n").data, ?_⟩
  simp [fallback_application, String.data_append]

end Broccoli
